import Mathlib

/-!
A verification development for the hypertension DDI-scraper repository.

The repository drives two interaction-checker web UIs (drugs.com via
`playwright_ddi_scraper.py` and the DrugBank demo via
`drugbank_ddi_scraper.py`) and records a `(severity, text)` result per
drug pair, with checkpointed batch processing.  Below, the pure decision
logic of those scripts is embedded shallowly in Lean:

* Python string primitives (`lower`, `upper`, `strip`, `capitalize`,
  the `in` substring test, `startswith`) are modelled over `List Char`;
* the browser/DOM is abstracted into observation records: every DOM query
  the code performs becomes a field holding what the query would return,
  with `Option` encoding "the call raised";
* the result extractors, the dropdown best-match selection, the
  per-pair `check_interaction` wrappers and the batch/checkpoint runner
  are translated function by function;
* floats in the similarity heuristic are modelled as exact rationals.
-/

/-! ## Python string primitives -/

/-- Python `str.lower()` restricted to the ASCII range used by the scrapers. -/
def pyLowerStr (s : String) : String :=
  String.mk (s.toList.map Char.toLower)

/-- Python `str.upper()` restricted to the ASCII range used by the scrapers. -/
def pyUpperStr (s : String) : String :=
  String.mk (s.toList.map Char.toUpper)

/-- Characters removed by Python `str.strip()` (ASCII whitespace). -/
def stripChars (l : List Char) : List Char :=
  ((l.dropWhile Char.isWhitespace).reverse.dropWhile Char.isWhitespace).reverse

/-- Python `str.strip()` with no argument: drop leading and trailing whitespace. -/
def pyStrip (s : String) : String :=
  String.mk (stripChars s.toList)

/-- Python `str.capitalize()`: first character upper-cased, the rest lower-cased. -/
def pyCapitalize (s : String) : String :=
  match s.toList with
  | [] => ""
  | c :: cs => String.mk (c.toUpper :: cs.map Char.toLower)

/-- Substring occurrence test on character lists (Python `needle in hay`). -/
def pyInChars (needle hay : List Char) : Bool :=
  match hay with
  | [] => needle.isEmpty
  | _ :: t => needle.isPrefixOf hay || pyInChars needle t

/-- Python `needle in hay` on strings. -/
def pyInStr (needle hay : String) : Bool :=
  pyInChars needle.toList hay.toList

/-- Python `s.startswith(pre)`. -/
def pyStarts (s pre : String) : Bool :=
  pre.toList.isPrefixOf s.toList

/-! ## `DrugBankDDIScraper._calculate_similarity`

`drugbank_ddi_scraper.py` lines 419-448.  The two-pointer loop counts
characters of `str1` matched in order inside `str2`; the score is
`matches / ((len1+len2)/2)`, with `0.0` when either string is empty.
The Python floats are modelled as exact rationals. -/

/-- The `while i < len(str1) and j < len(str2)` matching loop: on a character
match both pointers advance, otherwise only `j` advances. -/
def simMatches : List Char → List Char → Nat
  | _, [] => 0
  | [], _ :: _ => 0
  | a :: xs, b :: ys => if a = b then simMatches xs ys + 1 else simMatches (a :: xs) ys

/-- `DrugBankDDIScraper._calculate_similarity(str1, str2)`. -/
def calculateSimilarity (str1 str2 : String) : ℚ :=
  if str1 = "" ∨ str2 = "" then 0
  else
    let m : Nat := simMatches str1.toList str2.toList
    let avgLen : ℚ := ((str1.length : ℚ) + (str2.length : ℚ)) / 2
    if 0 < avgLen then (m : ℚ) / avgLen else 0

/-! ## `DrugBankDDIScraper._select_best_match`

`drugbank_ddi_scraper.py` lines 349-417.  Options are represented by
their display text (the Python dict also carries the DOM handle, which
the decision logic never reads). -/

/-- Strategy 1 predicate: case-insensitive exact match
(`drug_name_lower == option_text_lower`). -/
def exactPred (name t : String) : Bool :=
  pyStrip (pyLowerStr t) == pyStrip (pyLowerStr name)

/-- Strategy 2 predicate: `option_text_lower.startswith(drug_name_lower)`. -/
def startsPred (name t : String) : Bool :=
  pyStarts (pyStrip (pyLowerStr t)) (pyStrip (pyLowerStr name))

/-- Strategy 3 predicate: `drug_name_lower in option_text_lower`. -/
def containsPred (name t : String) : Bool :=
  pyInStr (pyStrip (pyLowerStr name)) (pyStrip (pyLowerStr t))

/-- The option base name: `text.split('(')[0].split('[')[0].strip()`. -/
def pyBaseName (s : String) : String :=
  pyStrip (String.mk ((s.toList.takeWhile (fun c => c != '(')).takeWhile (fun c => c != '[')))

/-- Strategy 4 predicate: `option_drug_name in drug_name_lower`. -/
def revContainsPred (name t : String) : Bool :=
  pyInStr (pyBaseName (pyStrip (pyLowerStr t))) (pyStrip (pyLowerStr name))

/-- Strategy 5 accumulator loop: track `best_option`/`best_similarity`,
updating only on a strictly greater score (`similarity > best_similarity`). -/
def simScan (name : String) (options : List String) : Option String × ℚ :=
  options.foldl
    (fun acc t =>
      let s := calculateSimilarity (pyStrip (pyLowerStr name)) (pyBaseName (pyStrip (pyLowerStr t)))
      if acc.2 < s then (some t, s) else acc)
    ((none : Option String), (0 : ℚ))

/-- Tail of `_select_best_match`: `if best_option and best_similarity > 0.5`
return it, else fall back to the first listed option. -/
def simFallback (name : String) (options : List String) : Option String :=
  if (simScan name options).1.isSome = true ∧ (1 / 2 : ℚ) < (simScan name options).2 then
    (simScan name options).1
  else options.head?

/-- `DrugBankDDIScraper._select_best_match(drug_name, options)`: the five
strategies in source order, each a first-match loop, then the first-option
last resort; `None` only for an empty option list. -/
def selectBestMatch (name : String) (options : List String) : Option String :=
  match options with
  | [] => none
  | o₀ :: rest =>
    match (o₀ :: rest).find? (exactPred name) with
    | some o => some o
    | none =>
      match (o₀ :: rest).find? (startsPred name) with
      | some o => some o
      | none =>
        match (o₀ :: rest).find? (containsPred name) with
        | some o => some o
        | none =>
          match (o₀ :: rest).find? (revContainsPred name) with
          | some o => some o
          | none => simFallback name (o₀ :: rest)

/-- Option collection loop of `_find_best_dropdown_match` (lines 311-320):
keep `text.strip()` for each element whose text is truthy after stripping. -/
def collectOptions (cands : List String) : List String :=
  cands.filterMap (fun t => if pyStrip t = "" then none else some (pyStrip t))

/-- `DrugBankDDIScraper._find_best_dropdown_match(drug_name)` over the texts
offered by the dropdown: `None` when no (non-blank) options exist, otherwise
the text of the option chosen and clicked by `_select_best_match`. -/
def findBestDropdownMatch (name : String) (cands : List String) : Option String :=
  let opts := collectOptions cands
  if opts.isEmpty then none
  else
    match selectBestMatch name opts with
    | some t => some t
    | none => none

/-- The observable commit action of `_add_drug` (lines 262-270): click the
matched dropdown option, or press Enter on the raw typed text when
`_find_best_dropdown_match` returned `None`. -/
inductive EntryAction where
  | clickedOption (t : String)
  | pressedEnter
deriving DecidableEq

/-- Drug-entry sub-flow decision in `DrugBankDDIScraper._add_drug`. -/
def addDrug (name : String) (cands : List String) : EntryAction :=
  match findBestDropdownMatch name cands with
  | some t => EntryAction.clickedOption t
  | none => EntryAction.pressedEnter

/-! ## `PlaywrightDDIScraper._extract_severity`

`playwright_ddi_scraper.py` lines 346-547.  The page is abstracted into
the observations the function makes, in the order it makes them. -/

/-- One element returned by the severity-selector queries inside the
scoped interaction section: its `class` attribute (empty string when the
attribute is absent, per `get_attribute("class") or ""`) and inner text.
The three selectors' result lists are concatenated in query order. -/
structure PWElem where
  cls : String
  txt : String
deriving DecidableEq

/-- Observations of the drugs.com results page made by `_extract_severity`.

* `unexpectedError`: an unexpected exception reaches the outermost
  `except` (line 542) before any return statement is reached;
* `roleQuery`: result of `get_by_role("heading", ...).is_visible(...)`;
  `some b` models the probe returning `b` (Playwright's `is_visible`
  returns `False`, without raising, when no element matches), `none`
  models the probe raising, which sends the code to the CSS/XPath
  fallback selectors;
* `fallbackHeaderFound`: some fallback heading selector finds a visible
  heading (lines 387-406);
* `sectionFound`: the `following-sibling::div[1]` of the heading exists
  (lines 424-432);
* `sectionText`: `interaction_section.inner_text()` (the code substitutes
  `""` when that read raises, lines 458-460);
* `elements`: the `(class, text)` pairs seen by the severity scan;
* `sectionHtml`: `interaction_section.inner_html()` for the step-5 fallback. -/
structure PWPageObs where
  unexpectedError : Bool
  roleQuery : Option Bool
  fallbackHeaderFound : Bool
  sectionFound : Bool
  sectionText : String
  elements : List PWElem
  sectionHtml : String
deriving DecidableEq

/-- Return value of `_extract_severity`: the documented `(severity, text)`
tuple, or — on the line-379 path — a bare string. -/
inductive PWExtractOut where
  | pair (sev text : String)
  | bare (s : String)
deriving DecidableEq

/-- Severity checks applied to one scanned element (lines 477-506):
class-attribute category tests, then exact text membership in
`["MAJOR","MODERATE","MINOR"]` with `capitalize()`, then the
keyword-containment loop over the same three tokens. -/
def scanElemOne (st : String) (e : PWElem) : Option (String × String) :=
  if pyInStr "status-category-major" e.cls then some ("Major", pyStrip st)
  else if pyInStr "status-category-moderate" e.cls then some ("Moderate", pyStrip st)
  else if pyInStr "status-category-minor" e.cls then some ("Minor", pyStrip st)
  else if pyUpperStr (pyStrip e.txt) = "MAJOR" ∨ pyUpperStr (pyStrip e.txt) = "MODERATE" ∨
          pyUpperStr (pyStrip e.txt) = "MINOR" then
    some (pyCapitalize (pyUpperStr (pyStrip e.txt)), pyStrip st)
  else if pyInStr "MAJOR" (pyUpperStr (pyStrip e.txt)) then some (pyCapitalize "MAJOR", pyStrip st)
  else if pyInStr "MODERATE" (pyUpperStr (pyStrip e.txt)) then
    some (pyCapitalize "MODERATE", pyStrip st)
  else if pyInStr "MINOR" (pyUpperStr (pyStrip e.txt)) then some (pyCapitalize "MINOR", pyStrip st)
  else none

/-- Step-4 severity scan: first element in selector/document order that
yields a severity wins (the loops return immediately on a match). -/
def scanElements (els : List PWElem) (st : String) : Option (String × String) :=
  els.findSome? (scanElemOne st)

/-- Steps 2-6 of `_extract_severity`, entered once a drug-drug interaction
heading was found (lines 418-540): locate the sibling section, check the
no-interaction sentinel, scan for a severity, fall back to a raw-HTML class
scan, and finally return `"None"` with the captured section text. -/
def pwExtractFromSection (o : PWPageObs) : PWExtractOut :=
  if o.sectionFound = false then PWExtractOut.pair "None" "No drug-drug interactions found"
  else if pyInStr "No drug" o.sectionText && pyInStr "drug interactions were found" o.sectionText then
    PWExtractOut.pair "None" "No drug-drug interactions found"
  else
    match scanElements o.elements o.sectionText with
    | some p => PWExtractOut.pair p.1 p.2
    | none =>
      if pyInStr "status-category-major" (pyLowerStr o.sectionHtml) then
        PWExtractOut.pair "Major" (pyStrip o.sectionText)
      else if pyInStr "status-category-moderate" (pyLowerStr o.sectionHtml) then
        PWExtractOut.pair "Moderate" (pyStrip o.sectionText)
      else if pyInStr "status-category-minor" (pyLowerStr o.sectionHtml) then
        PWExtractOut.pair "Minor" (pyStrip o.sectionText)
      else
        PWExtractOut.pair "None"
          (if o.sectionText = "" then "No drug-drug interactions found"
           else pyStrip o.sectionText)

/-- `PlaywrightDDIScraper._extract_severity`.  Note the header guard
(lines 364-416): `is_visible` reporting `False` executes line 379,
`return "None"` — a bare string, not the `(severity, text)` tuple the
docstring promises; only the raising probe reaches the fallback selectors
and their tuple-valued returns. -/
def pwExtractSeverity (o : PWPageObs) : PWExtractOut :=
  if o.unexpectedError then
    PWExtractOut.pair "Error" "Error extracting interaction information"
  else
    match o.roleQuery with
    | some true => pwExtractFromSection o
    | some false => PWExtractOut.bare "None"
    | none =>
      if o.fallbackHeaderFound then pwExtractFromSection o
      else PWExtractOut.pair "None" "No drug-drug interactions found"

/-! ## `check_interaction` result records -/

/-- The result dict built by `check_interaction` in both scrapers:
drug pair, severity, text, `Status`, and `Error_Message` (the timestamp
field carries no decision logic and is omitted). -/
structure ScrapeRecord where
  drug1 : String
  drug2 : String
  severity : String
  text : String
  status : String
  errMsg : Option String
deriving DecidableEq

/-- Status assignment after extraction (playwright lines 249-255,
drugbank lines 204-210). -/
def statusFor (sev : String) : String :=
  if sev = "Error" then "Failed"
  else if sev = "None" ∨ sev = "Major" ∨ sev = "Moderate" ∨ sev = "Minor" then "Success"
  else "Completed with issues"

/-- The `except Exception` handler record: severity `Error`, text and
`Error_Message` prefixed with `Error: `, `Status` left at its initial
`Failed` (playwright lines 275-280, drugbank lines 230-235). -/
def failRecord (d1 d2 msg : String) : ScrapeRecord :=
  { drug1 := d1, drug2 := d2, severity := "Error", text := "Error: " ++ msg,
    status := "Failed", errMsg := some ("Error: " ++ msg) }

/-- The `except PlaywrightTimeoutError` handler record (playwright lines
268-273, drugbank lines 223-228). -/
def timeoutRecord (d1 d2 msg : String) : ScrapeRecord :=
  { drug1 := d1, drug2 := d2, severity := "Timeout", text := "Request timed out",
    status := "Failed", errMsg := some ("Timeout error: " ++ msg) }

/-- Message of the exception `check_interaction` raises when the
Check Interactions button cannot be clicked (playwright line 229; the
quotation marks around the button label are elided). -/
def triggerButtonMsg : String :=
  "Could not find or click the Check Interactions button with selector: #interaction_list > div > a"

/-- Line 244, `severity, interaction_text = await self._extract_severity()`:
tuple unpacking of the extractor result.  Unpacking a string of length two
binds its characters; any other length raises `ValueError`, which the
enclosing `except Exception` converts into the generic failure record. -/
def pwUnpack (d1 d2 : String) (r : PWExtractOut) : ScrapeRecord :=
  match r with
  | PWExtractOut.pair sev text =>
    { drug1 := d1, drug2 := d2, severity := sev, text := text,
      status := statusFor sev, errMsg := none }
  | PWExtractOut.bare s =>
    match s.toList with
    | [c₁, c₂] =>
      { drug1 := d1, drug2 := d2, severity := String.mk [c₁], text := String.mk [c₂],
        status := statusFor (String.mk [c₁]), errMsg := none }
    | _ => failRecord d1 d2 "too many values to unpack (expected 2)"

/-- How one `check_interaction` call on the playwright scraper plays out:
the navigation/entry/trigger/extraction pipeline either reaches
extraction (`ok`), times out waiting for the Check Interactions button
(`triggerTimeout`, re-raised as a generic `Exception` at line 229), hits a
`PlaywrightTimeoutError` elsewhere that propagates to the handler
(`navTimeout`), or raises some other exception (`otherFail`). -/
inductive PWOutcome where
  | ok (o : PWPageObs)
  | triggerTimeout
  | navTimeout (msg : String)
  | otherFail (msg : String)
deriving DecidableEq

/-- `PlaywrightDDIScraper.check_interaction(drug1, drug2)` (lines 127-282). -/
def pwCheckInteraction (d1 d2 : String) (out : PWOutcome) : ScrapeRecord :=
  match out with
  | PWOutcome.ok o => pwUnpack d1 d2 (pwExtractSeverity o)
  | PWOutcome.triggerTimeout => failRecord d1 d2 triggerButtonMsg
  | PWOutcome.navTimeout m => timeoutRecord d1 d2 m
  | PWOutcome.otherFail m => failRecord d1 d2 m

/-! ## `DrugBankDDIScraper` extraction

`drugbank_ddi_scraper.py` lines 485-654. -/

/-- Observations of the DrugBank results page.  `none` in an `Option`
field models the corresponding Playwright call raising (each strategy is
wrapped in its own `try`, so a raise just falls through to the next
strategy).

* `containerCount`: `locator(result_container_selector).count()`;
* `sevText`: strategy-1 `inner_text` of the dedicated severity selector;
* `sevClassTexts`: strategy-2 inner texts of all `[class*='severity']`
  elements, in document order;
* `pageContent`: strategy-3 full page markup;
* `descText`: description strategy-1 `inner_text` (already awaited);
* `containerText`: description strategy-2 container `inner_text`;
* `divTexts`: description strategy-3 texts of `div.ddi-widget-body div`. -/
structure DBObs where
  containerCount : Nat
  sevText : Option String
  sevClassTexts : Option (List String)
  pageContent : Option String
  descText : Option String
  containerText : Option String
  divTexts : Option (List String)
deriving DecidableEq

/-- The keyword test shared verbatim by all three severity strategies:
`"MAJOR" in text_upper` / elif `"MODERATE"` / elif `"MINOR"` (lines
552-560, 574-582, 593-601). -/
def dbKeyword (u : String) : Option String :=
  if pyInStr "MAJOR" u then some "Major"
  else if pyInStr "MODERATE" u then some "Moderate"
  else if pyInStr "MINOR" u then some "Minor"
  else none

/-- Severity strategy 3 (lines 587-603): scan the entire page markup,
upper-cased; fall through to `"None"` (line 606). -/
def dbSevStrat3 (o : DBObs) : String :=
  match o.pageContent with
  | some c =>
    match dbKeyword (pyUpperStr c) with
    | some s => s
    | none => "None"
  | none => "None"

/-- Severity strategy 2 (lines 567-584): first `[class*='severity']`
element whose stripped upper-cased text contains a severity keyword. -/
def dbSevStrat2 (o : DBObs) : String :=
  match o.sevClassTexts with
  | some ts =>
    match ts.findSome? (fun t => dbKeyword (pyUpperStr (pyStrip t))) with
    | some s => s
    | none => dbSevStrat3 o
  | none => dbSevStrat3 o

/-- `DrugBankDDIScraper._extract_severity` (lines 533-606): strategy 1 on
the dedicated selector's stripped upper-cased text, then strategies 2-3. -/
def dbExtractSeverity (o : DBObs) : String :=
  match o.sevText with
  | some t =>
    match dbKeyword (pyUpperStr (pyStrip t)) with
    | some s => s
    | none => dbSevStrat2 o
  | none => dbSevStrat2 o

/-- Description strategy 3 (lines 641-651): first
`div.ddi-widget-body div` with more than 50 characters of text, stripped;
fall through to the sentinel (line 654). -/
def dbDescStrat3 (o : DBObs) : String :=
  match o.divTexts with
  | some ds =>
    match ds.find? (fun d => decide (50 < d.length)) with
    | some d => pyStrip d
    | none => "No description found"
  | none => "No description found"

/-- Description strategy 2 (lines 628-639): result-container text,
stripped, if truthy and longer than 10 characters. -/
def dbDescStrat2 (o : DBObs) : String :=
  match o.containerText with
  | some t =>
    if pyStrip t ≠ "" ∧ 10 < (pyStrip t).length then pyStrip t else dbDescStrat3 o
  | none => dbDescStrat3 o

/-- `DrugBankDDIScraper._extract_description` (lines 608-654). -/
def dbExtractDescription (o : DBObs) : String :=
  match o.descText with
  | some t =>
    if pyStrip t ≠ "" ∧ 10 < (pyStrip t).length then pyStrip t else dbDescStrat2 o
  | none => dbDescStrat2 o

/-- `DrugBankDDIScraper._extract_severity_and_text(drug1, drug2)` (lines
485-531).  A zero count for the result container raises
`Exception("No interaction found for ...")` (line 507), and the
function's own `except` clause re-raises (line 531): the exception
escapes this function's boundary, modelled as `Except.error`. -/
def dbExtractSeverityAndText (d1 d2 : String) (o : DBObs) : Except String (String × String) :=
  if o.containerCount = 0 then
    Except.error ("No interaction found for " ++ d1 ++ " + " ++ d2)
  else
    Except.ok (dbExtractSeverity o, dbExtractDescription o)

/-- How one DrugBank `check_interaction` call plays out: extraction is
reached (`ok`; the raise inside `_extract_severity_and_text` is part of
`DBObs`), a `PlaywrightTimeoutError` propagates to the handler
(`navTimeout`), or some other exception is raised (`otherFail`). -/
inductive DBOutcome where
  | ok (o : DBObs)
  | navTimeout (msg : String)
  | otherFail (msg : String)
deriving DecidableEq

/-- Lines 199-212 of the DrugBank `check_interaction`: on a normal
extractor return, record severity/text and assign `Status`; a raise from
`_extract_severity_and_text` lands in the `except Exception` handler
(line 230). -/
def dbFromExtract (d1 d2 : String) (r : Except String (String × String)) : ScrapeRecord :=
  match r with
  | Except.ok p =>
    { drug1 := d1, drug2 := d2, severity := p.1, text := p.2,
      status := statusFor p.1, errMsg := none }
  | Except.error m => failRecord d1 d2 m

/-- `DrugBankDDIScraper.check_interaction(drug1, drug2)` (lines 133-237). -/
def dbCheckInteraction (d1 d2 : String) (out : DBOutcome) : ScrapeRecord :=
  match out with
  | DBOutcome.ok o => dbFromExtract d1 d2 (dbExtractSeverityAndText d1 d2 o)
  | DBOutcome.navTimeout m => timeoutRecord d1 d2 m
  | DBOutcome.otherFail m => failRecord d1 d2 m

/-! ## Batch/checkpoint runner

`playwright_ddi_scraper.py` `process_drug_pairs` (lines 576-757) and the
drugbank variant (lines 683-829).  A table row holds the two drug-name
cells and the severity/text result cells; `none` models a pandas `NaN`
(missing) cell, `some s` a string cell.  CSV write/read round-trips
preserve this representation (non-empty strings survive, `NaN` becomes an
empty cell read back as `NaN`). -/

/-- One row of the in-memory drug-pair table. -/
structure BRow where
  dA : String
  dB : String
  sev : Option String
  txt : Option String
deriving DecidableEq

/-- Skip test of the processing loop (playwright lines 677-678, drugbank
lines 765-766): `pd.notna(x) and x not in ['Error','Timeout','TBD','']`.
A `NaN` cell fails `notna`, so the row is processed. -/
def alreadyProcessed : Option String → Bool
  | none => false
  | some s => !(s == "Error" || s == "Timeout" || s == "TBD" || s == "")

/-- Processing of one index by the playwright batch loop (lines 671-691):
skip an already-processed row, otherwise run `check_interaction` on the
stripped drug names and write severity and text back into the row. -/
def stepRow (f : Nat → PWOutcome) (df : List BRow) (idx : Nat) : List BRow :=
  match df[idx]? with
  | none => df
  | some r =>
    if alreadyProcessed r.sev then df
    else
      df.set idx
        { r with
          sev := some (pwCheckInteraction (pyStrip r.dA) (pyStrip r.dB) (f idx)).severity,
          txt := some (pwCheckInteraction (pyStrip r.dA) (pyStrip r.dB) (f idx)).text }

/-- The batch loop over `range(start, stop)`. -/
def runRows (f : Nat → PWOutcome) (df : List BRow) (start stop : Nat) : List BRow :=
  (List.range' start (stop - start)).foldl (stepRow f) df

/-- The checkpoint `Status` lambda (playwright lines 704-706):
`'Success' if x not in ['Error', 'Timeout', None] else 'Failed'`.
For an unprocessed row the severity cell is pandas `NaN`, which is
neither of the two strings nor the Python constant `None`, so the lambda
labels it `Success`. -/
def pwCkptStatus : Option String → String
  | some s => if s = "Error" ∨ s = "Timeout" then "Failed" else "Success"
  | none => "Success"

/-- One row of the checkpoint file `{severity, text, Status}` (the drug
name columns carry no decision logic and are omitted). -/
structure CkptEntry where
  sev : Option String
  txt : Option String
  status : String
deriving DecidableEq

/-- Checkpoint written after each processed row (playwright lines
702-708): a full snapshot of the table with the `Status` column. -/
def mkCheckpoint (df : List BRow) : List CkptEntry :=
  df.map (fun r => { sev := r.sev, txt := r.txt, status := pwCkptStatus r.sev })

/-- `len(checkpoint_df[checkpoint_df['Status'] == 'Success'])`. -/
def countSuccess (c : List CkptEntry) : Nat :=
  (c.filter (fun e => e.status == "Success")).length

/-- The resume backfill loop (`for idx, row in checkpoint_df.iterrows():
if idx < len(df): ...`): copy each checkpoint row's severity and text
into the same-index table row. -/
def backfill : List BRow → List CkptEntry → List BRow
  | [], _ => []
  | r :: rs, [] => r :: rs
  | r :: rs, e :: es => { r with sev := e.sev, txt := e.txt } :: backfill rs es

/-- Core of checkpoint loading (playwright lines 643-658, drugbank lines
732-746): when the checkpoint has at least one `Success` row, the start
index becomes the count of `Success` rows and the table is backfilled. -/
def resumeCore (c : List CkptEntry) (df : List BRow) : Nat × List BRow :=
  if countSuccess c = 0 then (0, df) else (countSuccess c, backfill df c)

/-- Playwright checkpoint loading: `start_index = 0`, then `resumeCore`
when the checkpoint file exists. -/
def pwResumeLoad (ckpt : Option (List CkptEntry)) (df : List BRow) : Nat × List BRow :=
  match ckpt with
  | none => (0, df)
  | some c => resumeCore c df

/-- DrugBank checkpoint loading (lines 732-746): gated on
`start_row == 0 and Path(checkpoint_file).exists()`. -/
def dbResumeLoad (startArg : Nat) (ckpt : Option (List CkptEntry)) (df : List BRow) :
    Nat × List BRow :=
  match ckpt with
  | none => (startArg, df)
  | some c => if startArg = 0 then resumeCore c df else (startArg, df)

/-! ## Concrete page states and batch scenarios used by the theorems -/

/-- A results page carrying only food/disease interaction sections: no
"Interactions between your drugs" heading exists, so the role-based
heading probe reports not-visible (and does not raise). -/
def foodDiseaseOnlyObs : PWPageObs :=
  { unexpectedError := false, roleQuery := some false, fallbackHeaderFound := false,
    sectionFound := false, sectionText := "", elements := [], sectionHtml := "" }

/-- A page state on which an unexpected exception reaches the outermost
handler of `_extract_severity`. -/
def crashObs : PWPageObs :=
  { unexpectedError := true, roleQuery := some true, fallbackHeaderFound := false,
    sectionFound := true, sectionText := "", elements := [], sectionHtml := "" }

/-- A DrugBank results page with no result container at all. -/
def dbNoContainerObs : DBObs :=
  { containerCount := 0, sevText := none, sevClassTexts := none, pageContent := none,
    descText := none, containerText := none, divTexts := none }

/-- A DrugBank results page with a result container but no severity hit
in any strategy: `_extract_severity` returns `"None"`. -/
def dbNoHitObs : DBObs :=
  { containerCount := 1, sevText := none, sevClassTexts := none, pageContent := none,
    descText := none, containerText := none, divTexts := none }

/-- A drugs.com results page whose interaction section carries a
`status-category-moderate` label: extraction yields `Moderate`. -/
def moderatePageObs : PWPageObs :=
  { unexpectedError := false, roleQuery := some true, fallbackHeaderFound := false,
    sectionFound := true, sectionText := "Moderate interaction applies",
    elements := [{ cls := "ddc-status-label status-category-moderate", txt := "Moderate" }],
    sectionHtml := "x" }

/-- Scrape oracle for the resume scenario: every pair resolves to the
`Moderate` page. -/
def c8Outcomes : Nat → PWOutcome := fun _ => PWOutcome.ok moderatePageObs

/-- A two-row input table with empty result cells. -/
def c8Table : List BRow :=
  [{ dA := "Captopril", dB := "Amlodipane", sev := none, txt := none },
   { dA := "Losartan", dB := "Atenolol", sev := none, txt := none }]

/-- Uninterrupted single pass over rows `[0, 2)`. -/
def c8SinglePass : List BRow := runRows c8Outcomes c8Table 0 2

/-- The run interrupted after row 0 (the `KeyboardInterrupt` handler
flushes this table; the per-row checkpoint was already written). -/
def c8Interrupted : List BRow := runRows c8Outcomes c8Table 0 1

/-- Resuming from the checkpoint written after row 0: load it, backfill,
and continue the loop from the computed start index. -/
def c8Resumed : List BRow :=
  runRows c8Outcomes (pwResumeLoad (some (mkCheckpoint c8Interrupted)) c8Interrupted).2
    (pwResumeLoad (some (mkCheckpoint c8Interrupted)) c8Interrupted).1 2

/-- Scrape oracle for the failure-isolation scenario: pair 0 times out at
the trigger button, pair 1 reaches a Moderate results page. -/
def c9Outcomes : Nat → PWOutcome := fun idx =>
  if idx = 0 then PWOutcome.triggerTimeout else PWOutcome.ok moderatePageObs

/-- Two-row table for the failure-isolation scenario. -/
def c9Table : List BRow :=
  [{ dA := "Enalapril", dB := "Diltiazem", sev := none, txt := none },
   { dA := "Ramipril", dB := "Verapamil", sev := none, txt := none }]

/-- A one-row checkpoint with a successful result. -/
def c7Ckpt : List CkptEntry :=
  [{ sev := some "Major", txt := some "aspirin warfarin text", status := "Success" }]

/-- A two-row blank table to backfill. -/
def c7Df : List BRow :=
  [{ dA := "Aspirin", dB := "Warfarin", sev := none, txt := none },
   { dA := "Digoxin", dB := "Quinidine", sev := none, txt := none }]

/-! ## Helper lemmas -/

lemma simMatches_le_left : ∀ (xs ys : List Char), simMatches xs ys ≤ xs.length := by
  intro xs ys
  induction ys generalizing xs with
  | nil => cases xs <;> simp [simMatches]
  | cons b ys ih =>
    cases xs with
    | nil => simp [simMatches]
    | cons a xs' =>
      simp only [simMatches]
      split
      · exact Nat.succ_le_succ (ih xs')
      · exact ih (a :: xs')

lemma simMatches_le_right : ∀ (xs ys : List Char), simMatches xs ys ≤ ys.length := by
  intro xs ys
  induction ys generalizing xs with
  | nil => cases xs <;> simp [simMatches]
  | cons b ys ih =>
    cases xs with
    | nil => simp [simMatches]
    | cons a xs' =>
      simp only [simMatches, List.length_cons]
      split
      · exact Nat.succ_le_succ (ih xs')
      · exact Nat.le_succ_of_le (ih (a :: xs'))

lemma simMatches_self : ∀ (l : List Char), simMatches l l = l.length := by
  intro l
  induction l with
  | nil => rfl
  | cons a t ih => simp [simMatches, ih]

lemma statusFor_success {s : String}
    (h : s = "None" ∨ s = "Major" ∨ s = "Moderate" ∨ s = "Minor") :
    statusFor s = "Success" := by
  rcases h with rfl | rfl | rfl | rfl <;> decide

lemma string_append_ne_empty {a b : String} (h : a ≠ "") : a ++ b ≠ "" := by
  intro hab
  apply h
  have hl := congrArg String.length hab
  rw [String.length_append] at hl
  have h0 : ("" : String).length = 0 := rfl
  rw [h0] at hl
  have : a.length = 0 := by omega
  cases a with
  | mk data =>
    cases data with
    | nil => rfl
    | cons c cs => simp [String.length] at this

lemma scanElemOne_vocab {st : String} {e : PWElem} {s t : String}
    (h : scanElemOne st e = some (s, t)) :
    s = "Major" ∨ s = "Moderate" ∨ s = "Minor" := by
  unfold scanElemOne at h
  repeat' split at h
  any_goals exact Option.noConfusion h
  all_goals simp only [Option.some.injEq, Prod.mk.injEq] at h
  all_goals obtain ⟨h1, h2⟩ := h
  all_goals subst h1
  any_goals decide
  rename_i hcond
  rcases hcond with h1 | h1 | h1 <;> rw [h1] <;> decide

lemma scanElements_vocab : ∀ (els : List PWElem) (st s t : String),
    scanElements els st = some (s, t) → s = "Major" ∨ s = "Moderate" ∨ s = "Minor" := by
  intro els
  induction els with
  | nil => intro st s t h; simp [scanElements] at h
  | cons e rest ih =>
    intro st s t h
    unfold scanElements at h
    rcases hfa : scanElemOne st e with _ | p
    · rw [List.findSome?_cons, hfa] at h
      exact ih st s t h
    · rw [List.findSome?_cons, hfa] at h
      simp only [Option.some.injEq] at h
      rw [h] at hfa
      exact scanElemOne_vocab hfa

lemma pwExtractFromSection_pair (o : PWPageObs) :
    ∃ s t, pwExtractFromSection o = PWExtractOut.pair s t := by
  unfold pwExtractFromSection
  split
  · exact ⟨_, _, rfl⟩
  · split
    · exact ⟨_, _, rfl⟩
    · split
      · exact ⟨_, _, rfl⟩
      · split
        · exact ⟨_, _, rfl⟩
        · split
          · exact ⟨_, _, rfl⟩
          · split
            · exact ⟨_, _, rfl⟩
            · exact ⟨_, _, rfl⟩

lemma pwExtract_shape (o : PWPageObs) :
    (∃ s t, pwExtractSeverity o = PWExtractOut.pair s t) ∨
      pwExtractSeverity o = PWExtractOut.bare "None" := by
  unfold pwExtractSeverity
  split
  · exact Or.inl ⟨_, _, rfl⟩
  · split
    · exact Or.inl (pwExtractFromSection_pair _)
    · exact Or.inr rfl
    · split
      · exact Or.inl (pwExtractFromSection_pair _)
      · exact Or.inl ⟨_, _, rfl⟩

lemma pwExtract_bare {o : PWPageObs} {s : String}
    (h : pwExtractSeverity o = PWExtractOut.bare s) : s = "None" := by
  rcases pwExtract_shape o with ⟨a, b, hp⟩ | hb
  · rw [hp] at h
    exact absurd h (by simp)
  · have hh := hb.symm.trans h
    injection hh with h1
    exact h1.symm

lemma pwExtractFromSection_vocab {o : PWPageObs} {s t : String}
    (h : pwExtractFromSection o = PWExtractOut.pair s t) :
    s = "Major" ∨ s = "Moderate" ∨ s = "Minor" ∨ s = "None" := by
  unfold pwExtractFromSection at h
  split at h
  · simp only [PWExtractOut.pair.injEq] at h
    exact Or.inr (Or.inr (Or.inr h.1.symm))
  · split at h
    · simp only [PWExtractOut.pair.injEq] at h
      exact Or.inr (Or.inr (Or.inr h.1.symm))
    · split at h
      · rename_i p heq
        simp only [PWExtractOut.pair.injEq] at h
        rcases scanElements_vocab _ _ _ _ heq with h1 | h1 | h1
        · exact Or.inl (h.1.symm.trans h1)
        · exact Or.inr (Or.inl (h.1.symm.trans h1))
        · exact Or.inr (Or.inr (Or.inl (h.1.symm.trans h1)))
      · split at h
        · simp only [PWExtractOut.pair.injEq] at h
          exact Or.inl h.1.symm
        · split at h
          · simp only [PWExtractOut.pair.injEq] at h
            exact Or.inr (Or.inl h.1.symm)
          · split at h
            · simp only [PWExtractOut.pair.injEq] at h
              exact Or.inr (Or.inr (Or.inl h.1.symm))
            · simp only [PWExtractOut.pair.injEq] at h
              exact Or.inr (Or.inr (Or.inr h.1.symm))

lemma pwExtract_pair_vocab {o : PWPageObs} {s t : String}
    (h : pwExtractSeverity o = PWExtractOut.pair s t) :
    s = "Major" ∨ s = "Moderate" ∨ s = "Minor" ∨ s = "None" ∨ s = "Error" := by
  unfold pwExtractSeverity at h
  split at h
  · simp only [PWExtractOut.pair.injEq] at h
    exact Or.inr (Or.inr (Or.inr (Or.inr h.1.symm)))
  · split at h
    · rcases pwExtractFromSection_vocab h with h1 | h1 | h1 | h1
      · exact Or.inl h1
      · exact Or.inr (Or.inl h1)
      · exact Or.inr (Or.inr (Or.inl h1))
      · exact Or.inr (Or.inr (Or.inr (Or.inl h1)))
    · exact absurd h (by simp)
    · split at h
      · rcases pwExtractFromSection_vocab h with h1 | h1 | h1 | h1
        · exact Or.inl h1
        · exact Or.inr (Or.inl h1)
        · exact Or.inr (Or.inr (Or.inl h1))
        · exact Or.inr (Or.inr (Or.inr (Or.inl h1)))
      · simp only [PWExtractOut.pair.injEq] at h
        exact Or.inr (Or.inr (Or.inr (Or.inl h.1.symm)))

lemma dbKeyword_vocab {u s : String} (h : dbKeyword u = some s) :
    s = "Major" ∨ s = "Moderate" ∨ s = "Minor" := by
  unfold dbKeyword at h
  repeat' split at h
  any_goals exact Option.noConfusion h
  all_goals simp only [Option.some.injEq] at h
  all_goals subst h
  · exact Or.inl rfl
  · exact Or.inr (Or.inl rfl)
  · exact Or.inr (Or.inr rfl)

lemma dbScan2_vocab : ∀ (ts : List String) (s : String),
    ts.findSome? (fun t => dbKeyword (pyUpperStr (pyStrip t))) = some s →
    s = "Major" ∨ s = "Moderate" ∨ s = "Minor" := by
  intro ts
  induction ts with
  | nil => intro s h; simp at h
  | cons t rest ih =>
    intro s h
    rcases hfa : dbKeyword (pyUpperStr (pyStrip t)) with _ | v
    · rw [List.findSome?_cons, hfa] at h
      exact ih s h
    · rw [List.findSome?_cons, hfa] at h
      simp only [Option.some.injEq] at h
      rw [h] at hfa
      exact dbKeyword_vocab hfa

lemma dbSevStrat3_vocab (o : DBObs) :
    dbSevStrat3 o = "Major" ∨ dbSevStrat3 o = "Moderate" ∨ dbSevStrat3 o = "Minor" ∨
      dbSevStrat3 o = "None" := by
  unfold dbSevStrat3
  split
  · split
    · rename_i heq
      rcases dbKeyword_vocab heq with h | h | h
      · exact Or.inl h
      · exact Or.inr (Or.inl h)
      · exact Or.inr (Or.inr (Or.inl h))
    · exact Or.inr (Or.inr (Or.inr rfl))
  · exact Or.inr (Or.inr (Or.inr rfl))

lemma dbSevStrat2_vocab (o : DBObs) :
    dbSevStrat2 o = "Major" ∨ dbSevStrat2 o = "Moderate" ∨ dbSevStrat2 o = "Minor" ∨
      dbSevStrat2 o = "None" := by
  unfold dbSevStrat2
  split
  · split
    · rename_i heq
      rcases dbScan2_vocab _ _ heq with h | h | h
      · exact Or.inl h
      · exact Or.inr (Or.inl h)
      · exact Or.inr (Or.inr (Or.inl h))
    · exact dbSevStrat3_vocab o
  · exact dbSevStrat3_vocab o

lemma dbExtractSeverity_vocab (o : DBObs) :
    dbExtractSeverity o = "Major" ∨ dbExtractSeverity o = "Moderate" ∨
      dbExtractSeverity o = "Minor" ∨ dbExtractSeverity o = "None" := by
  unfold dbExtractSeverity
  split
  · split
    · rename_i heq
      rcases dbKeyword_vocab heq with h | h | h
      · exact Or.inl h
      · exact Or.inr (Or.inl h)
      · exact Or.inr (Or.inr (Or.inl h))
    · exact dbSevStrat2_vocab o
  · exact dbSevStrat2_vocab o

lemma pwUnpack_status (d1 d2 : String) (r : PWExtractOut) :
    (pwUnpack d1 d2 r).status = statusFor (pwUnpack d1 d2 r).severity ∨
      ((pwUnpack d1 d2 r).severity = "Error" ∧ (pwUnpack d1 d2 r).status = "Failed") := by
  unfold pwUnpack
  split
  · exact Or.inl rfl
  · split
    · exact Or.inl rfl
    · exact Or.inr ⟨rfl, rfl⟩

lemma pwRecord_status (d1 d2 : String) (out : PWOutcome) :
    (pwCheckInteraction d1 d2 out).status = statusFor (pwCheckInteraction d1 d2 out).severity ∨
      ((pwCheckInteraction d1 d2 out).severity = "Error" ∧
        (pwCheckInteraction d1 d2 out).status = "Failed") ∨
      ((pwCheckInteraction d1 d2 out).severity = "Timeout" ∧
        (pwCheckInteraction d1 d2 out).status = "Failed") := by
  cases out with
  | ok o =>
    rcases pwUnpack_status d1 d2 (pwExtractSeverity o) with h | h
    · exact Or.inl h
    · exact Or.inr (Or.inl h)
  | triggerTimeout => exact Or.inr (Or.inl ⟨rfl, rfl⟩)
  | navTimeout m => exact Or.inr (Or.inr ⟨rfl, rfl⟩)
  | otherFail m => exact Or.inr (Or.inl ⟨rfl, rfl⟩)

lemma dbRecord_status (d1 d2 : String) (out : DBOutcome) :
    (dbCheckInteraction d1 d2 out).status = statusFor (dbCheckInteraction d1 d2 out).severity ∨
      ((dbCheckInteraction d1 d2 out).severity = "Error" ∧
        (dbCheckInteraction d1 d2 out).status = "Failed") ∨
      ((dbCheckInteraction d1 d2 out).severity = "Timeout" ∧
        (dbCheckInteraction d1 d2 out).status = "Failed") := by
  cases out with
  | ok o =>
    have hgen : ∀ r : Except String (String × String),
        (dbFromExtract d1 d2 r).status = statusFor (dbFromExtract d1 d2 r).severity ∨
          ((dbFromExtract d1 d2 r).severity = "Error" ∧
            (dbFromExtract d1 d2 r).status = "Failed") ∨
          ((dbFromExtract d1 d2 r).severity = "Timeout" ∧
            (dbFromExtract d1 d2 r).status = "Failed") := by
      intro r
      cases r with
      | ok p => exact Or.inl rfl
      | error m => exact Or.inr (Or.inl ⟨rfl, rfl⟩)
    exact hgen (dbExtractSeverityAndText d1 d2 o)
  | navTimeout m => exact Or.inr (Or.inr ⟨rfl, rfl⟩)
  | otherFail m => exact Or.inr (Or.inl ⟨rfl, rfl⟩)

lemma record_inv {r : ScrapeRecord}
    (h : r.status = statusFor r.severity ∨ (r.severity = "Error" ∧ r.status = "Failed") ∨
      (r.severity = "Timeout" ∧ r.status = "Failed")) :
    (r.severity = "Error" → r.status = "Failed") ∧
      ((r.severity = "None" ∨ r.severity = "Major" ∨ r.severity = "Moderate" ∨
        r.severity = "Minor") → r.status = "Success") := by
  constructor
  · intro he
    rcases h with h | ⟨_, h2⟩ | ⟨_, h2⟩
    · rw [h, he]; decide
    · exact h2
    · exact h2
  · intro hs
    rcases h with h | ⟨h1, _⟩ | ⟨h1, _⟩
    · rw [h]; exact statusFor_success hs
    · rcases hs with h2 | h2 | h2 | h2 <;> rw [h1] at h2 <;> exact absurd h2 (by decide)
    · rcases hs with h2 | h2 | h2 | h2 <;> rw [h1] at h2 <;> exact absurd h2 (by decide)

lemma stepRow_getElem_ne (f : Nat → PWOutcome) (df : List BRow) (i j : Nat) (h : i ≠ j) :
    (stepRow f df i)[j]? = df[j]? := by
  unfold stepRow
  split
  · rfl
  · split
    · rfl
    · exact List.getElem?_set_ne h

lemma foldl_stepRow_not_mem (f : Nat → PWOutcome) :
    ∀ (l : List Nat) (df : List BRow) (j : Nat), j ∉ l →
      (l.foldl (stepRow f) df)[j]? = df[j]? := by
  intro l
  induction l with
  | nil => intro df j h; rfl
  | cons a t ih =>
    intro df j h
    rw [List.foldl_cons]
    rw [ih (stepRow f df a) j (fun hm => h (List.mem_cons_of_mem a hm))]
    exact stepRow_getElem_ne f df a j (fun e => h (e ▸ List.mem_cons_self a t))

lemma stepRow_length (f : Nat → PWOutcome) (df : List BRow) (i : Nat) :
    (stepRow f df i).length = df.length := by
  unfold stepRow
  split
  · rfl
  · split
    · rfl
    · exact List.length_set ..

lemma foldl_stepRow_length (f : Nat → PWOutcome) :
    ∀ (l : List Nat) (df : List BRow), (l.foldl (stepRow f) df).length = df.length := by
  intro l
  induction l with
  | nil => intro df; rfl
  | cons a t ih =>
    intro df
    rw [List.foldl_cons, ih]
    exact stepRow_length f df a

lemma runRows_processed (f : Nat → PWOutcome) (df : List BRow) (j : Nat) (r : BRow) (N : Nat)
    (hget : df[j]? = some r) (hproc : alreadyProcessed r.sev = false) (hjN : j < N) :
    (runRows f df 0 N)[j]? =
      some { r with
        sev := some (pwCheckInteraction (pyStrip r.dA) (pyStrip r.dB) (f j)).severity,
        txt := some (pwCheckInteraction (pyStrip r.dA) (pyStrip r.dB) (f j)).text } := by
  have hjlen : j < df.length := by
    rcases List.getElem?_eq_some.mp hget with ⟨w, _⟩
    exact w
  unfold runRows
  have hN0 : N - 0 = N := by omega
  rw [hN0]
  have happ := List.range'_append 0 j (N - j) 1
  have e1 : 0 + 1 * j = j := by omega
  have e2 : N - j + j = N := by omega
  rw [e1, e2] at happ
  rw [← happ, List.foldl_append]
  have hrest : N - j = (N - j - 1) + 1 := by omega
  rw [hrest, List.range'_succ j (N - j - 1) 1, List.foldl_cons]
  have hnotmem1 : j ∉ List.range' 0 j := by
    intro hm
    have := (List.mem_range'_1.mp hm).2
    omega
  have hget1 : ((List.range' 0 j).foldl (stepRow f) df)[j]? = some r := by
    rw [foldl_stepRow_not_mem f _ _ _ hnotmem1]
    exact hget
  have hlen1 : ((List.range' 0 j).foldl (stepRow f) df).length = df.length :=
    foldl_stepRow_length f _ _
  have hstep : stepRow f ((List.range' 0 j).foldl (stepRow f) df) j =
      ((List.range' 0 j).foldl (stepRow f) df).set j
        { r with
          sev := some (pwCheckInteraction (pyStrip r.dA) (pyStrip r.dB) (f j)).severity,
          txt := some (pwCheckInteraction (pyStrip r.dA) (pyStrip r.dB) (f j)).text } := by
    simp [stepRow, hget1, hproc]
  have hnotmem2 : j ∉ List.range' (j + 1) (N - j - 1) := by
    intro hm
    have := (List.mem_range'_1.mp hm).1
    omega
  rw [foldl_stepRow_not_mem f _ _ _ hnotmem2, hstep]
  exact List.getElem?_set_eq_of_lt _ (by rw [hlen1]; exact hjlen)

lemma backfill_get : ∀ (df : List BRow) (ck : List CkptEntry) (i : Nat) (e : CkptEntry),
    i < df.length → ck[i]? = some e →
    ((backfill df ck)[i]?).map BRow.sev = some e.sev ∧
      ((backfill df ck)[i]?).map BRow.txt = some e.txt := by
  intro df
  induction df with
  | nil => intro ck i e hi _; simp at hi
  | cons r rs ih =>
    intro ck i e hi he
    cases ck with
    | nil => simp at he
    | cons e0 es =>
      cases i with
      | zero =>
        simp only [List.getElem?_cons_zero, Option.some.injEq] at he
        subst he
        simp [backfill]
      | succ n =>
        have hi' : n < rs.length := by
          simp only [List.length_cons] at hi
          omega
        have he' : es[n]? = some e := by simpa using he
        have hr := ih es n e hi' he'
        simpa [backfill] using hr

lemma countSuccess_ne_zero {ck : List CkptEntry} {i : Nat} {e : CkptEntry}
    (he : ck[i]? = some e) (hs : e.status = "Success") : countSuccess ck ≠ 0 := by
  have hmem : e ∈ ck := List.getElem?_mem he
  have hf : e ∈ ck.filter (fun x => x.status == "Success") := by
    rw [List.mem_filter]
    exact ⟨hmem, by simp [hs]⟩
  intro h0
  unfold countSuccess at h0
  rw [List.length_eq_zero] at h0
  rw [h0] at hf
  simp at hf

lemma string_length_pos {s : String} (h : s ≠ "") : 0 < s.length := by
  cases s with
  | mk data =>
    cases data with
    | nil => exact absurd rfl h
    | cons a l => simp [String.length]

lemma calcSim_zzz_qqq : calculateSimilarity "zzz" "qqq" = 0 := by
  simp only [calculateSimilarity]
  rw [if_neg (by decide : ¬("zzz" = "" ∨ "qqq" = ""))]
  have hm : simMatches "zzz".toList "qqq".toList = 0 := by decide
  split
  · rw [hm]
    simp
  · rfl

lemma simScan_zzz_qqq : simScan "zzz" ["qqq"] = (none, 0) := by
  simp only [simScan, List.foldl_cons, List.foldl_nil]
  rw [show pyStrip (pyLowerStr "zzz") = "zzz" from by decide,
    show pyBaseName (pyStrip (pyLowerStr "qqq")) = "qqq" from by decide,
    calcSim_zzz_qqq]
  rw [if_neg (lt_irrefl (0 : ℚ))]

/-! ## Claim theorems -/

/-- C10: for all pairs of strings, `_calculate_similarity` returns a value
`v` with `0 ≤ v ≤ 1`; it returns `0` when either string is empty, and
returns exactly `1` for two identical non-empty strings. -/
theorem C10_similarity_bounds :
    (∀ s t : String, 0 ≤ calculateSimilarity s t ∧ calculateSimilarity s t ≤ 1) ∧
      (∀ s t : String, s = "" ∨ t = "" → calculateSimilarity s t = 0) ∧
      (∀ s : String, s ≠ "" → calculateSimilarity s s = 1) := by
  refine ⟨?_, ?_, ?_⟩
  · intro s t
    by_cases h : s = "" ∨ t = ""
    · have hz : calculateSimilarity s t = 0 := by
        simp only [calculateSimilarity]
        rw [if_pos h]
      rw [hz]
      norm_num
    · have hs : s ≠ "" := fun e => h (Or.inl e)
      have ht : t ≠ "" := fun e => h (Or.inr e)
      have hsl : (1 : ℚ) ≤ (s.length : ℚ) := by exact_mod_cast string_length_pos hs
      have htl : (1 : ℚ) ≤ (t.length : ℚ) := by exact_mod_cast string_length_pos ht
      have havg : (0 : ℚ) < ((s.length : ℚ) + (t.length : ℚ)) / 2 := by linarith
      have hval : calculateSimilarity s t =
          (simMatches s.toList t.toList : ℚ) / (((s.length : ℚ) + (t.length : ℚ)) / 2) := by
        simp only [calculateSimilarity]
        rw [if_neg h, if_pos havg]
      rw [hval]
      constructor
      · apply div_nonneg _ (le_of_lt havg)
        exact_mod_cast Nat.zero_le _
      · rw [div_le_one havg]
        have h1 := simMatches_le_left s.toList t.toList
        have h2 := simMatches_le_right s.toList t.toList
        have e1 : s.toList.length = s.length := rfl
        have e2 : t.toList.length = t.length := rfl
        rw [e1] at h1
        rw [e2] at h2
        have h1q : (simMatches s.toList t.toList : ℚ) ≤ (s.length : ℚ) := by exact_mod_cast h1
        have h2q : (simMatches s.toList t.toList : ℚ) ≤ (t.length : ℚ) := by exact_mod_cast h2
        linarith
  · intro s t h
    simp only [calculateSimilarity]
    rw [if_pos h]
  · intro s hs
    have h : ¬(s = "" ∨ s = "") := by simp [hs]
    have hsl : (1 : ℚ) ≤ (s.length : ℚ) := by exact_mod_cast string_length_pos hs
    have havg : (0 : ℚ) < ((s.length : ℚ) + (s.length : ℚ)) / 2 := by linarith
    simp only [calculateSimilarity]
    rw [if_neg h, if_pos havg]
    rw [show simMatches s.toList s.toList = s.toList.length from simMatches_self _]
    have e1 : s.toList.length = s.length := rfl
    rw [e1]
    rw [div_eq_one_iff_eq (ne_of_gt havg)]
    ring

/-- C1: the claim asserts that on a results page with no
"Interactions between your drugs" heading, `_extract_severity` yields the
definitive pair `("None", sentinel)` and never an `Error` result.  The
code contradicts its own docstring here: the role-based heading probe
reports not-visible on such a page, line 379 returns the bare string
`"None"` instead of a tuple, the caller's tuple unpacking raises
`ValueError`, and `check_interaction` records severity `Error` with
`Status` `Failed`. -/
theorem C1_header_guard_code_bug :
    pwExtractSeverity foodDiseaseOnlyObs = PWExtractOut.bare "None" ∧
      (pwCheckInteraction "Captopril" "Hydrochlorothiazide"
        (PWOutcome.ok foodDiseaseOnlyObs)).severity = "Error" ∧
      (pwCheckInteraction "Captopril" "Hydrochlorothiazide"
        (PWOutcome.ok foodDiseaseOnlyObs)).status = "Failed" := by
  exact ⟨rfl, rfl, rfl⟩

/-- C2: the severity value written into the result record by
`check_interaction` is always one of the six strings `Major`, `Moderate`,
`Minor`, `None`, `Error`, `Timeout` — in both scrapers, on every outcome. -/
theorem C2_severity_vocabulary (d1 d2 : String) (outP : PWOutcome) (outD : DBOutcome) :
    (pwCheckInteraction d1 d2 outP).severity ∈
        (["Major", "Moderate", "Minor", "None", "Error", "Timeout"] : List String) ∧
      (dbCheckInteraction d1 d2 outD).severity ∈
        (["Major", "Moderate", "Minor", "None", "Error", "Timeout"] : List String) := by
  constructor
  · cases outP with
    | ok o =>
      rcases pwExtract_shape o with ⟨s, t, hp⟩ | hb
      · have hsev : (pwCheckInteraction d1 d2 (PWOutcome.ok o)).severity = s := by
          show (pwUnpack d1 d2 (pwExtractSeverity o)).severity = s
          rw [hp]
          rfl
        rw [hsev]
        rcases pwExtract_pair_vocab hp with h | h | h | h | h <;> rw [h] <;> decide
      · have hsev : (pwCheckInteraction d1 d2 (PWOutcome.ok o)).severity = "Error" := by
          show (pwUnpack d1 d2 (pwExtractSeverity o)).severity = "Error"
          rw [hb]
          rfl
        rw [hsev]
        decide
    | triggerTimeout =>
      have hsev : (pwCheckInteraction d1 d2 PWOutcome.triggerTimeout).severity = "Error" := rfl
      rw [hsev]
      decide
    | navTimeout m =>
      have hsev : (pwCheckInteraction d1 d2 (PWOutcome.navTimeout m)).severity = "Timeout" := rfl
      rw [hsev]
      decide
    | otherFail m =>
      have hsev : (pwCheckInteraction d1 d2 (PWOutcome.otherFail m)).severity = "Error" := rfl
      rw [hsev]
      decide
  · cases outD with
    | ok o =>
      cases hx : dbExtractSeverityAndText d1 d2 o with
      | error m =>
        have hsev : (dbCheckInteraction d1 d2 (DBOutcome.ok o)).severity = "Error" := by
          show (dbFromExtract d1 d2 (dbExtractSeverityAndText d1 d2 o)).severity = "Error"
          rw [hx]
          rfl
        rw [hsev]
        decide
      | ok p =>
        have hsev : (dbCheckInteraction d1 d2 (DBOutcome.ok o)).severity = p.1 := by
          show (dbFromExtract d1 d2 (dbExtractSeverityAndText d1 d2 o)).severity = p.1
          rw [hx]
          rfl
        rw [hsev]
        have hp1 : p.1 = dbExtractSeverity o := by
          unfold dbExtractSeverityAndText at hx
          split at hx
          · exact Except.noConfusion hx
          · simp only [Except.ok.injEq] at hx
            rw [← hx]
        rw [hp1]
        rcases dbExtractSeverity_vocab o with h | h | h | h <;> rw [h] <;> decide
    | navTimeout m =>
      have hsev : (dbCheckInteraction d1 d2 (DBOutcome.navTimeout m)).severity = "Timeout" := rfl
      rw [hsev]
      decide
    | otherFail m =>
      have hsev : (dbCheckInteraction d1 d2 (DBOutcome.otherFail m)).severity = "Error" := rfl
      rw [hsev]
      decide

/-- C3 counterexample: the claim says the result extractor never
propagates an exception past its own boundary, but on a DrugBank page
with no result container, `_extract_severity_and_text` raises (and its
own `except` clause re-raises at line 531). -/
theorem C3_output_contract_counterexample :
    dbExtractSeverityAndText "Aspirin" "Warfarin" dbNoContainerObs =
      Except.error "No interaction found for Aspirin + Warfarin" := rfl

/-- C3 amended: the playwright extractor returns without raising on every
modelled page state — its internal-exception path yields the pair
`("Error", diagnostic)`, and every other path yields a `(severity, text)`
pair except the header-not-visible path, which yields the bare string
`"None"`; the DrugBank extractor may raise past its boundary, and its
caller `check_interaction` converts any such exception into an
`("Error", message)` record with `Status` `Failed`. -/
theorem C3_output_contract_amended :
    (∀ o : PWPageObs, o.unexpectedError = true →
      pwExtractSeverity o =
        PWExtractOut.pair "Error" "Error extracting interaction information") ∧
      (∀ o : PWPageObs, (∃ s t, pwExtractSeverity o = PWExtractOut.pair s t) ∨
        pwExtractSeverity o = PWExtractOut.bare "None") ∧
      (∀ (d1 d2 m : String) (o : DBObs), dbExtractSeverityAndText d1 d2 o = Except.error m →
        (dbCheckInteraction d1 d2 (DBOutcome.ok o)).severity = "Error" ∧
          (dbCheckInteraction d1 d2 (DBOutcome.ok o)).status = "Failed" ∧
          (dbCheckInteraction d1 d2 (DBOutcome.ok o)).text = "Error: " ++ m) := by
  refine ⟨?_, pwExtract_shape, ?_⟩
  · intro o h
    unfold pwExtractSeverity
    rw [if_pos h]
  · intro d1 d2 m o h
    have he : dbCheckInteraction d1 d2 (DBOutcome.ok o) = failRecord d1 d2 m := by
      show dbFromExtract d1 d2 (dbExtractSeverityAndText d1 d2 o) = failRecord d1 d2 m
      rw [h]
      rfl
    rw [he]
    exact ⟨rfl, rfl, rfl⟩

/-- C3 witness: the amended contract at concrete inputs — a crashing
playwright page state yields the `Error` pair, and the no-container
DrugBank page yields an `Error` record from `check_interaction`. -/
theorem C3_output_contract_witness :
    pwExtractSeverity crashObs =
        PWExtractOut.pair "Error" "Error extracting interaction information" ∧
      (dbCheckInteraction "Aspirin" "Warfarin" (DBOutcome.ok dbNoContainerObs)).severity =
        "Error" := by
  constructor
  · exact C3_output_contract_amended.1 crashObs rfl
  · exact (C3_output_contract_amended.2.2 "Aspirin" "Warfarin"
      "No interaction found for Aspirin + Warfarin" dbNoContainerObs rfl).1

/-- C4: in every result record produced by `check_interaction` (both
scrapers, every outcome), severity `Error` implies `Status` `Failed`,
and a severity among `None`/`Major`/`Moderate`/`Minor` implies `Status`
`Success`. -/
theorem C4_result_invariant (d1 d2 : String) (outP : PWOutcome) (outD : DBOutcome) :
    ((pwCheckInteraction d1 d2 outP).severity = "Error" →
        (pwCheckInteraction d1 d2 outP).status = "Failed") ∧
      (((pwCheckInteraction d1 d2 outP).severity = "None" ∨
          (pwCheckInteraction d1 d2 outP).severity = "Major" ∨
          (pwCheckInteraction d1 d2 outP).severity = "Moderate" ∨
          (pwCheckInteraction d1 d2 outP).severity = "Minor") →
        (pwCheckInteraction d1 d2 outP).status = "Success") ∧
      ((dbCheckInteraction d1 d2 outD).severity = "Error" →
        (dbCheckInteraction d1 d2 outD).status = "Failed") ∧
      (((dbCheckInteraction d1 d2 outD).severity = "None" ∨
          (dbCheckInteraction d1 d2 outD).severity = "Major" ∨
          (dbCheckInteraction d1 d2 outD).severity = "Moderate" ∨
          (dbCheckInteraction d1 d2 outD).severity = "Minor") →
        (dbCheckInteraction d1 d2 outD).status = "Success") := by
  obtain ⟨h1, h2⟩ := record_inv (pwRecord_status d1 d2 outP)
  obtain ⟨h3, h4⟩ := record_inv (dbRecord_status d1 d2 outD)
  exact ⟨h1, h2, h3, h4⟩

/-- C4 witness: the invariant applied at concrete outcomes — a generic
failure is `Failed`, and a no-hit DrugBank extraction (severity `None`)
is `Success`. -/
theorem C4_result_invariant_witness :
    (pwCheckInteraction "Captopril" "Amlodipane" (PWOutcome.otherFail "boom")).status =
        "Failed" ∧
      (dbCheckInteraction "Aspirin" "Warfarin" (DBOutcome.ok dbNoHitObs)).status =
        "Success" := by
  constructor
  · exact (C4_result_invariant "Captopril" "Amlodipane" (PWOutcome.otherFail "boom")
      (DBOutcome.otherFail "x")).1 rfl
  · exact (C4_result_invariant "Captopril" "Amlodipane" (PWOutcome.otherFail "boom")
      (DBOutcome.ok dbNoHitObs)).2.2.2 (by decide)

/-- C5: `_select_best_match` applies, in strict priority order,
case-insensitive exact match, then starts-with, then contains, then
reverse-contains on the option base name, then the similarity fallback;
in particular, for candidates
`["Lisinopril 10mg tablet", "Lisinoprilum"]` and typed name
`"Lisinopril"`, the starts-with rule deterministically selects
`"Lisinopril 10mg tablet"`. -/
theorem C5_best_match_ranking :
    selectBestMatch "Lisinopril" ["Lisinopril 10mg tablet", "Lisinoprilum"] =
        some "Lisinopril 10mg tablet" ∧
      (∀ name o₀ rest o, (o₀ :: rest).find? (exactPred name) = some o →
        selectBestMatch name (o₀ :: rest) = some o) ∧
      (∀ name o₀ rest o, (o₀ :: rest).find? (exactPred name) = none →
        (o₀ :: rest).find? (startsPred name) = some o →
        selectBestMatch name (o₀ :: rest) = some o) ∧
      (∀ name o₀ rest o, (o₀ :: rest).find? (exactPred name) = none →
        (o₀ :: rest).find? (startsPred name) = none →
        (o₀ :: rest).find? (containsPred name) = some o →
        selectBestMatch name (o₀ :: rest) = some o) ∧
      (∀ name o₀ rest o, (o₀ :: rest).find? (exactPred name) = none →
        (o₀ :: rest).find? (startsPred name) = none →
        (o₀ :: rest).find? (containsPred name) = none →
        (o₀ :: rest).find? (revContainsPred name) = some o →
        selectBestMatch name (o₀ :: rest) = some o) ∧
      (∀ name o₀ rest, (o₀ :: rest).find? (exactPred name) = none →
        (o₀ :: rest).find? (startsPred name) = none →
        (o₀ :: rest).find? (containsPred name) = none →
        (o₀ :: rest).find? (revContainsPred name) = none →
        selectBestMatch name (o₀ :: rest) = simFallback name (o₀ :: rest)) := by
  refine ⟨by decide, ?_, ?_, ?_, ?_, ?_⟩
  · intro name o₀ rest o h
    simp only [selectBestMatch, h]
  · intro name o₀ rest o h1 h2
    simp only [selectBestMatch, h1, h2]
  · intro name o₀ rest o h1 h2 h3
    simp only [selectBestMatch, h1, h2, h3]
  · intro name o₀ rest o h1 h2 h3 h4
    simp only [selectBestMatch, h1, h2, h3, h4]
  · intro name o₀ rest h1 h2 h3 h4
    simp only [selectBestMatch, h1, h2, h3, h4]

/-- C5 witness: the exact-match and starts-with rules applied at concrete
candidate lists. -/
theorem C5_best_match_ranking_witness :
    selectBestMatch "aspirin" ["Aspirin"] = some "Aspirin" ∧
      selectBestMatch "warfa" ["Warfarin Sodium"] = some "Warfarin Sodium" := by
  constructor
  · exact C5_best_match_ranking.2.1 "aspirin" "Aspirin" [] "Aspirin" (by decide)
  · exact C5_best_match_ranking.2.2.1 "warfa" "Warfarin Sodium" [] "Warfarin Sodium"
      (by decide) (by decide)

/-- C6: when no matching strategy succeeds on a non-empty candidate list,
`_select_best_match` returns the first listed option; when the dropdown
offers no candidates at all, `_add_drug` falls back to committing the raw
typed text with a keyboard Enter press. -/
theorem C6_last_resort :
    (∀ name o₀ rest,
      (o₀ :: rest).find? (exactPred name) = none →
      (o₀ :: rest).find? (startsPred name) = none →
      (o₀ :: rest).find? (containsPred name) = none →
      (o₀ :: rest).find? (revContainsPred name) = none →
      ¬((simScan name (o₀ :: rest)).1.isSome = true ∧
          (1 / 2 : ℚ) < (simScan name (o₀ :: rest)).2) →
      selectBestMatch name (o₀ :: rest) = some o₀) ∧
      (∀ name, findBestDropdownMatch name [] = none) ∧
      (∀ name, addDrug name [] = EntryAction.pressedEnter) := by
  refine ⟨?_, fun _ => rfl, fun _ => rfl⟩
  intro name o₀ rest h1 h2 h3 h4 h5
  simp only [selectBestMatch, h1, h2, h3, h4]
  unfold simFallback
  rw [if_neg h5]
  rfl

/-- C6 witness: the last-resort rules at concrete inputs — a candidate
matched by no strategy is still selected as first option, and an empty
dropdown leads to the Enter-press free-text commit. -/
theorem C6_last_resort_witness :
    selectBestMatch "zzz" ["qqq"] = some "qqq" ∧
      addDrug "zzz" [] = EntryAction.pressedEnter := by
  constructor
  · refine C6_last_resort.1 "zzz" "qqq" [] (by decide) (by decide) (by decide) (by decide) ?_
    rw [simScan_zzz_qqq]
    simp
  · exact C6_last_resort.2.2 "zzz"

/-- C7: whenever the checkpoint file exists and the start row was not
overridden (given as `0`), the batch runner resumes at exactly the count
of checkpoint rows whose `Status` is `Success`, and each `Success` row's
severity and text are copied back into the same-index in-memory row. -/
theorem C7_resume_offset (ck : List CkptEntry) (df : List BRow) :
    (dbResumeLoad 0 (some ck) df).1 = countSuccess ck ∧
      (∀ i e, ck[i]? = some e → i < df.length → e.status = "Success" →
        ((dbResumeLoad 0 (some ck) df).2[i]?).map BRow.sev = some e.sev ∧
          ((dbResumeLoad 0 (some ck) df).2[i]?).map BRow.txt = some e.txt) := by
  have hload : dbResumeLoad 0 (some ck) df = resumeCore ck df := rfl
  rw [hload]
  constructor
  · unfold resumeCore
    split
    · rename_i h0
      rw [h0]
    · rfl
  · intro i e he hi hs
    have hnz : countSuccess ck ≠ 0 := countSuccess_ne_zero he hs
    have hcore : resumeCore ck df = (countSuccess ck, backfill df ck) := by
      unfold resumeCore
      rw [if_neg hnz]
    rw [hcore]
    exact backfill_get df ck i e hi he

/-- C7 witness: resuming on a one-row `Success` checkpoint over a
two-row table starts at row `1` and restores the stored severity. -/
theorem C7_resume_offset_witness :
    (dbResumeLoad 0 (some c7Ckpt) c7Df).1 = 1 ∧
      ((dbResumeLoad 0 (some c7Ckpt) c7Df).2[0]?).map BRow.sev = some (some "Major") := by
  constructor
  · exact (C7_resume_offset c7Ckpt c7Df).1.trans (by decide)
  · exact ((C7_resume_offset c7Ckpt c7Df).2 0
      { sev := some "Major", txt := some "aspirin warfarin text", status := "Success" }
      (by decide) (by decide) rfl).1

/-- C8: the claim asserts idempotent resume, but the checkpoint `Status`
lambda labels unprocessed `NaN` severity cells `Success` (`NaN` is not in
`['Error', 'Timeout', None]`), so after interrupting a two-row run at row
0 the checkpoint counts two successes, the resumed run starts past the
end, row 1 is never scraped, and the resumed table differs from the
uninterrupted single pass. -/
theorem C8_idempotent_resume_code_bug :
    c8Resumed ≠ c8SinglePass ∧
      (c8SinglePass[1]?).map BRow.sev = some (some "Moderate") ∧
      (c8Resumed[1]?).map BRow.sev = some none ∧
      pwCkptStatus none = "Success" := by
  refine ⟨by decide, by decide, by decide, rfl⟩

/-- C9 counterexample: the claim records severity `Timeout` for trigger
timeouts, but a timeout waiting for the Check Interactions button is
caught at line 214 and re-raised as a generic `Exception` (line 229), so
the row is recorded `Error`, not `Timeout`. -/
theorem C9_failure_isolation_counterexample :
    (pwCheckInteraction "Captopril" "Verapamil" PWOutcome.triggerTimeout).severity = "Error" ∧
      (pwCheckInteraction "Captopril" "Verapamil" PWOutcome.triggerTimeout).severity ≠
        "Timeout" := by
  exact ⟨rfl, by decide⟩

/-- C9 amended: every failing pair yields a normal return with a
non-empty error message and `Status` `Failed` — severity `Timeout` for a
`PlaywrightTimeoutError` reaching the handler, but severity `Error` for a
trigger-button timeout (wrapped in a generic exception) and for all other
exceptions; and the batch loop processes every not-yet-processed row with
its own pair's outcome, regardless of what happened on any other row. -/
theorem C9_failure_isolation_amended :
    (∀ d1 d2 m, (pwCheckInteraction d1 d2 (PWOutcome.navTimeout m)).severity = "Timeout" ∧
      (pwCheckInteraction d1 d2 (PWOutcome.navTimeout m)).status = "Failed" ∧
      (pwCheckInteraction d1 d2 (PWOutcome.navTimeout m)).errMsg =
        some ("Timeout error: " ++ m) ∧
      "Timeout error: " ++ m ≠ "") ∧
    (∀ d1 d2, (pwCheckInteraction d1 d2 PWOutcome.triggerTimeout).severity = "Error" ∧
      (pwCheckInteraction d1 d2 PWOutcome.triggerTimeout).status = "Failed" ∧
      (pwCheckInteraction d1 d2 PWOutcome.triggerTimeout).errMsg =
        some ("Error: " ++ triggerButtonMsg) ∧
      "Error: " ++ triggerButtonMsg ≠ "") ∧
    (∀ d1 d2 m, (pwCheckInteraction d1 d2 (PWOutcome.otherFail m)).severity = "Error" ∧
      (pwCheckInteraction d1 d2 (PWOutcome.otherFail m)).status = "Failed" ∧
      (pwCheckInteraction d1 d2 (PWOutcome.otherFail m)).errMsg = some ("Error: " ++ m) ∧
      "Error: " ++ m ≠ "") ∧
    (∀ f df j r N, df[j]? = some r → alreadyProcessed r.sev = false → j < N →
      (runRows f df 0 N)[j]? =
        some { r with
          sev := some (pwCheckInteraction (pyStrip r.dA) (pyStrip r.dB) (f j)).severity,
          txt := some (pwCheckInteraction (pyStrip r.dA) (pyStrip r.dB) (f j)).text }) := by
  refine ⟨?_, ?_, ?_, runRows_processed⟩
  · intro d1 d2 m
    exact ⟨rfl, rfl, rfl, string_append_ne_empty (by decide)⟩
  · intro d1 d2
    exact ⟨rfl, rfl, rfl, string_append_ne_empty (by decide)⟩
  · intro d1 d2 m
    exact ⟨rfl, rfl, rfl, string_append_ne_empty (by decide)⟩

/-- C9 witness: with pair 0 hitting a trigger timeout, the batch still
processes pair 1 and records its `Moderate` result; a navigation timeout
is recorded as severity `Timeout`. -/
theorem C9_failure_isolation_witness :
    (pwCheckInteraction "Enalapril" "Diltiazem"
        (PWOutcome.navTimeout "nav timed out")).severity = "Timeout" ∧
      ((runRows c9Outcomes c9Table 0 2)[1]?).map BRow.sev = some (some "Moderate") := by
  constructor
  · exact (C9_failure_isolation_amended.1 "Enalapril" "Diltiazem" "nav timed out").1
  · have h := C9_failure_isolation_amended.2.2.2 c9Outcomes c9Table 1
      { dA := "Ramipril", dB := "Verapamil", sev := none, txt := none } 2
      (by decide) (by decide) (by decide)
    rw [h]
    decide

/-- C10 witness: the similarity bounds at concrete inputs — identical
non-empty strings score exactly `1`, an empty first string scores `0`,
and an arbitrary pair stays within `[0, 1]`. -/
theorem C10_similarity_bounds_witness :
    calculateSimilarity "ab" "ab" = 1 ∧ calculateSimilarity "" "xy" = 0 ∧
      0 ≤ calculateSimilarity "ab" "xb" ∧ calculateSimilarity "ab" "xb" ≤ 1 := by
  refine ⟨?_, ?_, ?_, ?_⟩
  · exact C10_similarity_bounds.2.2 "ab" (by decide)
  · exact C10_similarity_bounds.2.1 "" "xy" (Or.inl rfl)
  · exact (C10_similarity_bounds.1 "ab" "xb").1
  · exact (C10_similarity_bounds.1 "ab" "xb").2
